import Mathlib

/-
Verification of the remote-cloudflare-kv client (src/index.ts) against its
natural-language specification.

The TypeScript source is shallowly embedded: every operation becomes a pure
Lean function from its arguments (plus the already-decoded HTTP responses it
would receive, and the current Unix time in seconds) to the list of HTTP
requests it issues together with its outcome (`Except KVError`).  JavaScript
numbers are modelled as rationals plus NaN, JavaScript truthiness is made
explicit, and host functions that the source delegates to (TextEncoder,
JSON.stringify, parseInt, Math.round, String.replace, fetch/response decoding)
are modelled by small executable Lean functions that follow the host
semantics.
-/

namespace KV

/-- Models a JavaScript number: either NaN or a finite value (rational;
floating-point rounding of the host is not modelled). -/
inductive JSNum where
  | nan
  | rat (q : ℚ)

/-- Models JavaScript truthiness of a number: NaN and 0 are falsy. -/
def JSNum.truthy : JSNum → Bool
  | .nan => false
  | .rat q => q != 0

/-- Models Number.isNaN. -/
def JSNum.isNaN : JSNum → Bool
  | .nan => true
  | .rat _ => false

/-- Models the JavaScript `<` comparison on numbers: false when either side
is NaN. -/
def JSNum.lt : JSNum → JSNum → Bool
  | .rat a, .rat b => a < b
  | _, _ => false

/-- Models the default string rendering of a number as used in template
literals (integer values render as their decimal digits; the decimal
rendering of non-integers is abstracted as num/den). -/
def JSNum.render : JSNum → String
  | .nan => "NaN"
  | .rat q => if q.den = 1 then toString q.num else toString q.num ++ "/" ++ toString q.den

/-- Models a `string | number` input (as in KVPutOptions.expiration and
expirationTtl): a finite number, NaN, or a string. -/
inductive NumStrInput where
  | num (q : ℚ)
  | nan
  | str (s : String)

/-- Models template-literal rendering of a `string | number` value. -/
def NumStrInput.render : NumStrInput → String
  | .num q => JSNum.render (.rat q)
  | .nan => "NaN"
  | .str s => s

/-- Models template-literal rendering of a `string | number | undefined`
value. -/
def renderOptInput : Option NumStrInput → String
  | none => "undefined"
  | some i => i.render

/-- Models JavaScript Math.round on a finite number: round half toward
positive infinity, i.e. the floor of q + 1/2 (computed on num/den so that
the kernel can evaluate it). -/
def mathRound (q : ℚ) : Int := Int.fdiv (2 * q.num + q.den) (2 * q.den)

/-- Models the value of a decimal digit string. -/
def digitsVal (l : List Char) : Nat := l.foldl (fun a c => a * 10 + (c.toNat - 48)) 0

/-- Models JavaScript parseInt(s, 10): skip leading whitespace, optional
sign, then the longest prefix of decimal digits; none (NaN) when there is no
digit.  (Float precision loss of the host on huge inputs is not modelled.) -/
def jsParseInt (s : String) : Option Int :=
  let l := s.data.dropWhile (fun c => c.isWhitespace)
  match l with
  | '-' :: rest =>
      let ds := rest.takeWhile (fun c => c.isDigit)
      if ds.isEmpty then none else some (-(digitsVal ds : Int))
  | '+' :: rest =>
      let ds := rest.takeWhile (fun c => c.isDigit)
      if ds.isEmpty then none else some ((digitsVal ds : Int))
  | _ =>
      let ds := l.takeWhile (fun c => c.isDigit)
      if ds.isEmpty then none else some ((digitsVal ds : Int))

/-- Result of `normaliseInt` in the source: a number (always an integer or
NaN after Math.round / parseInt) or undefined. -/
inductive JSNumU where
  | undefined
  | nan
  | int (i : Int)

/-- Models JavaScript truthiness of a `number | undefined`: undefined, NaN
and 0 are falsy. -/
def JSNumU.truthy : JSNumU → Bool
  | .int i => i != 0
  | _ => false

/-- Embeds `normaliseInt` from the source: numbers are rounded, strings are
parsed base 10, anything else (undefined) yields undefined. -/
def normaliseInt : Option NumStrInput → JSNumU
  | none => .undefined
  | some (.num q) => .int (mathRound q)
  | some .nan => .nan
  | some (.str s) =>
      match jsParseInt s with
      | some i => .int i
      | none => .nan

/- Models a JSON value (for metadata and decoded response bodies).
JsonList/JsonFields are inlined lists so that mutual recursion over the
tree is structural. -/
mutual
inductive Json where
  | null
  | bool (b : Bool)
  | num (n : Int)
  | str (s : String)
  | arr (elems : JsonList)
  | obj (fields : JsonFields)
inductive JsonList where
  | nil
  | cons (hd : Json) (tl : JsonList)
inductive JsonFields where
  | nil
  | cons (key : String) (val : Json) (tl : JsonFields)
end

/-- Hex digit for low-control-character escapes. -/
def hexDigit (n : Nat) : Char := if n < 10 then Char.ofNat (48 + n) else Char.ofNat (87 + n)

/-- Models JSON string escaping of one character as done by the host's
JSON.stringify. -/
def jsonEscapeChar (c : Char) : String :=
  if c = Char.ofNat 34 then ("\\\"")
  else if c = Char.ofNat 92 then ("\\\\")
  else if c = Char.ofNat 10 then ("\\n")
  else if c = Char.ofNat 9 then ("\\t")
  else if c = Char.ofNat 13 then ("\\r")
  else if c = Char.ofNat 8 then ("\\b")
  else if c = Char.ofNat 12 then ("\\f")
  else if c.toNat < 32 then ("\\u00") ++ String.mk [hexDigit (c.toNat / 16), hexDigit (c.toNat % 16)]
  else String.singleton c

/-- Models JSON string quoting as done by the host's JSON.stringify. -/
def jsonQuote (s : String) : String :=
  "\"" ++ String.join (s.data.map jsonEscapeChar) ++ "\""

/- Models the host's JSON.stringify on a JSON value. -/
mutual
def Json.stringify : Json → String
  | .null => "null"
  | .bool true => "true"
  | .bool false => "false"
  | .num n => toString n
  | .str s => jsonQuote s
  | .arr l => "[" ++ JsonList.stringifyElems l ++ "]"
  | .obj l => "\x7b" ++ JsonFields.stringifyFields l ++ "\x7d"
def JsonList.stringifyElems : JsonList → String
  | .nil => ""
  | .cons j .nil => Json.stringify j
  | .cons j tl => Json.stringify j ++ "," ++ JsonList.stringifyElems tl
def JsonFields.stringifyFields : JsonFields → String
  | .nil => ""
  | .cons k v .nil => jsonQuote k ++ ":" ++ Json.stringify v
  | .cons k v tl => jsonQuote k ++ ":" ++ Json.stringify v ++ "," ++ JsonFields.stringifyFields tl
end

/-- Models JavaScript truthiness of a JSON value (null, false, 0 and the
empty string are falsy). -/
def Json.truthy : Json → Bool
  | .null => false
  | .bool b => b
  | .num n => n != 0
  | .str s => s != ""
  | .arr _ => true
  | .obj _ => true

/-- First field with the given name, as JavaScript property access /
destructuring would see it (none models undefined). -/
def JsonFields.lookup : JsonFields → String → Option Json
  | .nil, _ => none
  | .cons k v tl, key => if k = key then some v else JsonFields.lookup tl key

/-- Errors thrown by the client: TypeError, the formatted Error produced by
throwKVError (kept structured as method/status/message), and a plain Error. -/
inductive KVError where
  | typeError (msg : String)
  | kvError (method : String) (status : Nat) (message : String)
  | plainError (msg : String)

/-- Classifies errors the spec calls InvalidArgument: TypeErrors and
status-400 KV errors, raised locally. -/
def KVError.isInvalidArgument : KVError → Bool
  | .typeError _ => true
  | .kvError _ status _ => status == 400
  | .plainError _ => false

/-- Classifies errors the spec calls RequestTooLarge: status 413/414 KV
errors. -/
def KVError.isRequestTooLarge : KVError → Bool
  | .kvError _ status _ => status == 413 || status == 414
  | _ => false

/-- Embeds the constants at the top of the source. -/
def MIN_CACHE_TTL : Int := 60

def MIN_EXPIRATION : Int := -2147483648

def MAX_EXPIRATION : Int := 2147483647

def MAX_LIST_KEYS : Nat := 1000

def MAX_KEY_SIZE : Nat := 512

def MAX_VALUE_SIZE : Nat := 25 * 1024 * 1024

def MAX_METADATA_SIZE : Nat := 1024

/-- Models textEncoder.encode(key).byteLength: the UTF-8 byte length of a
string. -/
def utf8Length (s : String) : Nat := s.data.foldl (fun n c => n + c.utf8Size) 0

/-- Embeds validateKey from the source: rejects the empty string, "." and
".." with a TypeError, then keys longer than MAX_KEY_SIZE UTF-8 bytes with a
414 error naming the observed length and the limit. -/
def validateKey (method : String) (key : String) : Except KVError Unit :=
  if key = "" then .error (.typeError ("Key name cannot be empty."))
  else if key = "." then .error (.typeError ("\".\" is not allowed as a key name."))
  else if key = ".." then .error (.typeError ("\"..\" is not allowed as a key name."))
  else
    let keyLength := utf8Length key
    if keyLength > MAX_KEY_SIZE then
      .error (.kvError method 414
        ("UTF-8 encoded length of " ++ toString keyLength ++
          " exceeds key length limit of " ++ toString MAX_KEY_SIZE ++ "."))
    else .ok ()

/-- Embeds the getValueTypes set from the source. -/
def getValueTypes : List String := ["text", "json", "arrayBuffer", "stream"]

/-- Models the `KVGetValueType | Partial KVGetOptions` argument of get:
either a bare type token or an options record with optional type and
optional cacheTtl. -/
inductive KVGetOptions where
  | typeStr (t : String)
  | record (type : Option String) (cacheTtl : Option JSNum)

/-- The type token selected by validateGetOptions before any check: the bare
string, the record's type, or the default "text". -/
def getOptionsType : Option KVGetOptions → String
  | some (.typeStr s) => s
  | some (.record t _) => t.getD ("text")
  | none => "text"

/-- The cacheTtl visible to validateGetOptions (undefined when the options
are a bare string or absent). -/
def getOptionsCacheTtl : Option KVGetOptions → Option JSNum
  | some (.record _ c) => c
  | _ => none

/-- Models the source condition
`cacheTtl && (Number.isNaN(cacheTtl) || cacheTtl < MIN_CACHE_TTL)`:
by JavaScript truthiness a cacheTtl of 0 or NaN skips the check entirely. -/
def cacheBad : Option JSNum → Bool
  | some c => c.truthy && (c.isNaN || JSNum.lt c (.rat 60))
  | none => false

/-- The message of the cache-TTL floor error. -/
def cacheTtlMsg (c : Option JSNum) : String :=
  "Invalid cache_ttl of " ++ (match c with | some n => n.render | none => "undefined") ++
    ". Cache TTL must be at least " ++ toString MIN_CACHE_TTL ++ "."

/-- The message of the unknown-response-type error. -/
def unknownTypeMsg : String :=
  "Unknown response type. Possible types are \"text\", \"arrayBuffer\", \"json\", and \"stream\"."

/-- Embeds validateGetOptions from the source: normalises the type token
(defaulting to "text"), checks a truthy cacheTtl against the 60-second
floor, then checks the type token against getValueTypes. -/
def validateGetOptions (options : Option KVGetOptions) : Except KVError String :=
  let type := getOptionsType options
  let cacheTtl := getOptionsCacheTtl options
  if cacheBad cacheTtl then
    .error (.kvError ("GET") 400 (cacheTtlMsg cacheTtl))
  else if getValueTypes.contains type then .ok type
  else .error (.typeError unknownTypeMsg)

/-- Models the constructor options record KVOptions. -/
structure KVOptions where
  api_email : Option String := none
  api_key : Option String := none
  api_token : Option String := none
  account_id : String
  namespace_id : String

/-- Models JavaScript truthiness of a `string | undefined`: undefined and
the empty string are falsy. -/
def strTruthy : Option String → Bool
  | none => false
  | some s => s != ""

/-- The immutable state captured at construction: the substituted base URL
and the header list (insertion order preserved). -/
structure Client where
  baseUrl : String
  headers : List (String × String)

/-- Checks whether a list of characters starts with a pattern. -/
def listStartsWith : List Char → List Char → Bool
  | _, [] => true
  | [], _ :: _ => false
  | a :: as, b :: bs => a == b && listStartsWith as bs

/-- Replaces the first occurrence of a pattern in a character list. -/
def replaceFirstList (s pat rep : List Char) : List Char :=
  match s with
  | [] => []
  | c :: rest =>
    if listStartsWith (c :: rest) pat then rep ++ (c :: rest).drop pat.length
    else c :: replaceFirstList rest pat rep

/-- Models JavaScript String.prototype.replace with a string pattern:
replaces the first occurrence only. -/
def jsReplace (s pat rep : String) : String :=
  String.mk (replaceFirstList s.data pat.data rep.data)

/-- The base-URL template of the source (braces written as characters). -/
def baseUrlTemplate : String :=
  "https://api.cloudflare.com/client/v4/accounts/\x7baccount_identifier\x7d/storage/kv/namespaces/\x7bnamespace_identifier\x7d"

/-- Embeds the CloudflareKV constructor: requires truthy account_id and
namespace_id, substitutes them into the base URL, requires at least one of
api_email / api_key / api_token to be truthy, then installs the email/key
header pair when both are truthy and the bearer authorization header when
the token is truthy, after the fixed content-type header. -/
def mkClient (options : KVOptions) : Except KVError Client :=
  if options.account_id = "" ∨ options.namespace_id = "" then
    .error (.plainError ("Missing account_id or namespace_id"))
  else
    let baseUrl :=
      jsReplace (jsReplace baseUrlTemplate ("\x7baccount_identifier\x7d") options.account_id)
        ("\x7bnamespace_identifier\x7d") options.namespace_id
    if ¬ strTruthy options.api_email ∧ ¬ strTruthy options.api_key ∧ ¬ strTruthy options.api_token then
      .error (.plainError ("Missing api_email, api_key or api_token"))
    else
      let headers := [(("content-type" : String), ("application/json" : String))]
      let headers :=
        if strTruthy options.api_email ∧ strTruthy options.api_key then
          headers ++ [(("x-api-email" : String), options.api_email.getD ("")),
            (("x-auth-key" : String), options.api_key.getD (""))]
        else headers
      let headers :=
        if strTruthy options.api_token then
          headers ++ [(("authorization" : String), "Bearer " ++ options.api_token.getD (""))]
        else headers
      .ok { baseUrl := baseUrl, headers := headers }

/-- One entry of the single-item bulk write body (undefined fields are
carried as such; JSON rendering of the wire body is abstracted). -/
structure BulkItem where
  expiration : JSNumU
  expiration_ttl : JSNumU
  key : String
  value : String
  metadata : Option Json

/-- One HTTP request as issued by the client: method, URL, query
parameters, headers, and the bulk body for put. -/
structure Request where
  method : String
  url : String
  params : List (String × String) := []
  headers : List (String × String)
  body : Option BulkItem := none

/-- Models the already-decoded views of one HTTP response: status,
res.text(), res.json(), res.arrayBuffer(), and whether res.body is
non-null.  Decoding itself is the host's. -/
structure Response where
  status : Nat
  text : String := ""
  json : Json := .null
  bytes : List Nat := []
  hasBody : Bool := true

/-- The JavaScript value the decoded body produces, as returned by get.
none models the JavaScript null returned on 404, for a JSON body that is
the literal null, and for an absent stream body. -/
inductive GetValue where
  | text (s : String)
  | json (j : Json)
  | bytes (b : List Nat)
  | stream

/-- Decodes the response body according to the validated type token,
mirroring the switch in get.  A JSON body of literal null and a null
res.body decode to the JavaScript null (none). -/
def decodeBody (type : String) (r : Response) : Option GetValue :=
  if type = "text" then some (.text r.text)
  else if type = "json" then
    match r.json with
    | .null => none
    | j => some (.json j)
  else if type = "arrayBuffer" then some (.bytes r.bytes)
  else if r.hasBody then some (.stream) else none

/-- The request issued by get/delete/put value lookups against
/values/(key). -/
def valuesRequest (cfg : Client) (method : String) (key : String) : Request :=
  { method := method, url := cfg.baseUrl ++ "/values/" ++ key, headers := cfg.headers }

/-- Embeds get: validates the key and the options, then issues one GET
against /values/(key); a 404 yields the explicit null, otherwise the body
is decoded per the requested type.  The first component lists the requests
issued. -/
def get (cfg : Client) (key : String) (options : Option KVGetOptions) (resp : Response) :
    List Request × Except KVError (Option GetValue) :=
  match validateKey ("GET") key with
  | .error e => ([], .error e)
  | .ok _ =>
    match validateGetOptions options with
    | .error e => ([], .error e)
    | .ok type =>
      ([valuesRequest cfg ("GET") key],
        .ok (if resp.status = 404 then none else decodeBody type resp))

/-- The request issued by the metadata lookup against /metadata/(key). -/
def metadataRequest (cfg : Client) (key : String) : Request :=
  { method := "GET", url := cfg.baseUrl ++ "/metadata/" ++ key, headers := cfg.headers }

/-- Models destructuring `(\x7bresult\x7d) => result` on the parsed metadata
response: property lookup on an object, a TypeError on null, undefined
otherwise. -/
def unwrapResult : Json → Except KVError (Option Json)
  | .null => .error (.typeError ("Cannot destructure property \x27result\x27 of null."))
  | .obj fields => .ok (fields.lookup ("result"))
  | _ => .ok none

/-- Embeds getWithMetadata: runs get; when the value is the JavaScript null
the metadata fetch is skipped and both components are null; otherwise one
further GET against /metadata/(key) is issued and its JSON body is unwrapped
from the result envelope. -/
def getWithMetadata (cfg : Client) (key : String) (options : Option KVGetOptions)
    (valueResp metaResp : Response) :
    List Request × Except KVError (Option GetValue × Option Json) :=
  match get cfg key options valueResp with
  | (reqs, .error e) => (reqs, .error e)
  | (reqs, .ok none) => (reqs, .ok (none, none))
  | (reqs, .ok (some v)) =>
      match unwrapResult metaResp.json with
      | .error e => (reqs ++ [metadataRequest cfg key], .error e)
      | .ok md => (reqs ++ [metadataRequest cfg key], .ok (some v, md))

/-- Embeds delete: validates the key then issues one DELETE against
/values/(key), discarding the response. -/
def delete (cfg : Client) (key : String) : List Request × Except KVError Unit :=
  match validateKey ("DELETE") key with
  | .error e => ([], .error e)
  | .ok _ => ([valuesRequest cfg ("DELETE") key], .ok ())

/-- Models the KVPutValueType argument of put.  str is a JavaScript string;
the buffer/view/stream constructors all have typeof "object"; prim stands
for a primitive outside the declared type (e.g. a number), the only way to
reach typeof values other than "string"/"object". -/
inductive PutValue where
  | str (s : String)
  | arrayBuffer
  | arrayBufferView (bytes : List Nat)
  | stream
  | prim

/-- Models JavaScript typeof on a PutValue. -/
def PutValue.jsTypeof : PutValue → String
  | .str _ => "string"
  | .prim => "number"
  | _ => "object"

/-- Models the host's JSON.stringify on the non-string put values:
ArrayBuffer and ReadableStream have no own enumerable properties and
stringify to an empty object, a typed-array view stringifies to an
index-keyed object. -/
def PutValue.stringifyObject : PutValue → String
  | .arrayBufferView bytes =>
      "\x7b" ++ String.intercalate (",")
        ((List.range bytes.length).zip bytes |>.map
          (fun p => "\"" ++ toString p.1 ++ "\":" ++ toString p.2)) ++ "\x7d"
  | _ => "\x7b\x7d"

/-- The TypeError message of put for non-string, non-object values (verbatim
from the source, including its typo). -/
def putValueTypeMsg : String :=
  "KV put() accepts only strings as values (ArrayBuffers, ArrayBufferViews, and ReadableStreams not support)."

/-- Embeds the `stored` computation of put: strings pass through, typeof
"object" values are JSON-stringified, anything else raises the TypeError. -/
def toStored (value : PutValue) : Except KVError String :=
  match value with
  | .str s => .ok s
  | v => if v.jsTypeof = "object" then .ok v.stringifyObject else .error (.typeError putValueTypeMsg)

/-- Models the KVPutOptions record. -/
structure KVPutOptions where
  expiration : Option NumStrInput := none
  expirationTtl : Option NumStrInput := none
  metadata : Option Json := none

/-- The out-of-range TypeError message of put (verbatim, with the range
substituted). -/
def outOfRangeMsg : String :=
  "Value out of range. Must be between " ++ toString MIN_EXPIRATION ++ " and " ++
    toString MAX_EXPIRATION ++ " (inclusive)."

/-- The message of the non-positive-TTL error. -/
def ttlPositiveMsg (i : Option NumStrInput) : String :=
  "Invalid expiration_ttl of " ++ renderOptInput i ++ ". Please specify integer greater than 0."

/-- The message of the TTL-floor error (cites MIN_CACHE_TTL = 60). -/
def ttlFloorMsg (i : Option NumStrInput) : String :=
  "Invalid expiration_ttl of " ++ renderOptInput i ++ ". Expiration TTL must be at least " ++
    toString MIN_CACHE_TTL ++ "."

/-- The message of the non-future absolute expiration error. -/
def expInvalidMsg (i : Option NumStrInput) : String :=
  "Invalid expiration of " ++ renderOptInput i ++
    ". Please specify integer greater than the current number of seconds since the UNIX epoch."

/-- The message of the absolute-expiration floor error (cites
MIN_CACHE_TTL = 60 seconds in the future). -/
def expFloorMsg (i : Option NumStrInput) : String :=
  "Invalid expiration of " ++ renderOptInput i ++ ". Expiration times must be at least " ++
    toString MIN_CACHE_TTL ++ " seconds in the future."

/-- Embeds the `else if (expiration !== undefined)` branch of put: range
check, then a NaN / not-greater-than-now check, then the 60-second-future
floor; on success the pair (expiration, expirationTtl) reaches the body. -/
def validateAbsExpiration (options : KVPutOptions) (expiration : JSNumU) (now : Int)
    (expirationTtl : JSNumU) : Except KVError (JSNumU × JSNumU) :=
  match expiration with
  | .undefined => .ok (.undefined, expirationTtl)
  | .nan =>
      -- the range comparisons are false on NaN; Number.isNaN(expiration) then fires
      .error (.kvError ("PUT") 400 (expInvalidMsg options.expiration))
  | .int x =>
      if x < MIN_EXPIRATION ∨ MAX_EXPIRATION < x then .error (.typeError outOfRangeMsg)
      else if x ≤ now then .error (.kvError ("PUT") 400 (expInvalidMsg options.expiration))
      else if x < now + MIN_CACHE_TTL then
        .error (.kvError ("PUT") 400 (expFloorMsg options.expiration))
      else .ok (.int x, expirationTtl)

/-- Embeds the expiration/TTL validation of put.  `if (expirationTtl)` is
JavaScript truthiness: a normalized TTL of 0, NaN or undefined falls
through to the absolute-expiration branch.  A truthy TTL is checked against
the signed-32-bit range (a TypeError, thrown before the value itself is
checked), then positivity (the NaN disjunct of the source is unreachable
here since NaN is falsy), then the 60-second floor; on success the
absolute expiration becomes now + ttl. -/
def validateExpiration (options : KVPutOptions) (now : Int) : Except KVError (JSNumU × JSNumU) :=
  let expiration := normaliseInt options.expiration
  let expirationTtl := normaliseInt options.expirationTtl
  match expirationTtl with
  | .int t =>
      if t = 0 then validateAbsExpiration options expiration now (.int t)
      else if t < MIN_EXPIRATION ∨ MAX_EXPIRATION < t then .error (.typeError outOfRangeMsg)
      else if t ≤ 0 then .error (.kvError ("PUT") 400 (ttlPositiveMsg options.expirationTtl))
      else if t < MIN_CACHE_TTL then .error (.kvError ("PUT") 400 (ttlFloorMsg options.expirationTtl))
      else .ok (.int (now + t), .int t)
  | .nan => validateAbsExpiration options expiration now .nan
  | .undefined => validateAbsExpiration options expiration now .undefined

/-- The message of the value-size error (observed length and limit). -/
def valueTooLargeMsg (n : Nat) : String :=
  "Value length of " ++ toString n ++ " exceeds limit of " ++ toString MAX_VALUE_SIZE ++ "."

/-- The message of the metadata-size error (observed length and limit). -/
def metadataTooLargeMsg (n : Nat) : String :=
  "Metadata length of " ++ toString n ++ " exceeds limit of " ++ toString MAX_METADATA_SIZE ++ "."

/-- Embeds the metadata size check of put:
`options.metadata && JSON.stringify(options.metadata).length` is falsy when
the metadata is absent or a falsy value, and the length is then checked
against MAX_METADATA_SIZE.  Lengths are JavaScript string lengths (UTF-16
code units; the model restricts strings to the basic multilingual plane,
where this is the character count). -/
def metadataCheck (m : Option Json) : Except KVError Unit :=
  match m with
  | none => .ok ()
  | some j =>
      if j.truthy then
        let metadataLength := (Json.stringify j).length
        if metadataLength ≠ 0 ∧ metadataLength > MAX_METADATA_SIZE then
          .error (.kvError ("PUT") 413 (metadataTooLargeMsg metadataLength))
        else .ok ()
      else .ok ()

/-- The single-element bulk payload assembled by put. -/
def bulkItem (key stored : String) (expiration expirationTtl : JSNumU)
    (metadata : Option Json) : BulkItem :=
  { expiration := expiration, expiration_ttl := expirationTtl, key := key,
    value := stored, metadata := metadata }

/-- The single bulk request issued by put. -/
def bulkRequest (cfg : Client) (key stored : String) (expiration expirationTtl : JSNumU)
    (metadata : Option Json) : Request :=
  { method := "PUT", url := cfg.baseUrl ++ "/bulk", headers := cfg.headers,
    body := some (bulkItem key stored expiration expirationTtl metadata) }

/-- Embeds put: validates the key, converts the value to the stored string,
validates expiration/TTL, checks the stored string's JavaScript length
(UTF-16 code units, `stored.length` in the source) against MAX_VALUE_SIZE,
checks the serialized metadata length, then issues the single bulk PUT. -/
def put (cfg : Client) (key : String) (value : PutValue) (options : KVPutOptions) (now : Int) :
    List Request × Except KVError Unit :=
  match validateKey ("PUT") key with
  | .error e => ([], .error e)
  | .ok _ =>
    match toStored value with
    | .error e => ([], .error e)
    | .ok stored =>
      match validateExpiration options now with
      | .error e => ([], .error e)
      | .ok (expiration, expirationTtl) =>
        if stored.length > MAX_VALUE_SIZE then
          ([], .error (.kvError ("PUT") 413 (valueTooLargeMsg stored.length)))
        else
          match metadataCheck options.metadata with
          | .error e => ([], .error e)
          | .ok _ =>
              ([bulkRequest cfg key stored expiration expirationTtl options.metadata], .ok ())

/-- Models the KVListOptions record (`pfx` embeds the source field named
prefix). -/
structure KVListOptions where
  pfx : Option String := none
  limit : Option JSNum := none
  cursor : Option String := none

/-- One key as returned by the list endpoint. -/
structure StoredKeyMeta where
  name : String
  expiration : Option Int := none
  metadata : Option Json := none

/-- The reshaped list result. -/
structure KVListResult where
  keys : List StoredKeyMeta
  cursor : String
  list_complete : Bool

/-- Models the decoded JSON envelope of the list endpoint.  The
list_complete_hint field stands for any completion hint the server might
send; the client never reads it. -/
structure ListEnvelope where
  result : List StoredKeyMeta
  result_info_cursor : String
  list_complete_hint : Option Bool := none

/-- The message of the limit-lower-bound error. -/
def limitLowMsg (l : JSNum) : String :=
  "Invalid key_count_limit of " ++ l.render ++ ". Please specify an integer greater than 0."

/-- The message of the limit-upper-bound error (cites MAX_LIST_KEYS). -/
def limitHighMsg (l : JSNum) : String :=
  "Invalid key_count_limit of " ++ l.render ++ ". Please specify an integer less than " ++
    toString MAX_LIST_KEYS ++ "."

/-- The single request issued by list, with its query parameters. -/
def keysRequest (cfg : Client) (params : List (String × String)) : Request :=
  { method := "GET", url := cfg.baseUrl ++ "/keys", params := params, headers := cfg.headers }

/-- The query parameters appended by list: prefix, limit and cursor, each
only when truthy (the validated limit is at least 1, hence always
appended). -/
def listParams (pfx : String) (limit : JSNum) (cursor : Option String) : List (String × String) :=
  (if pfx ≠ "" then [(("prefix" : String), pfx)] else []) ++
  (if limit.truthy then [(("limit" : String), limit.render)] else []) ++
  (match cursor with
   | some c => if c ≠ "" then [(("cursor" : String), c)] else []
   | none => [])

/-- Embeds list: defaults prefix to the empty string and limit to
MAX_LIST_KEYS, rejects NaN or sub-1 limits, then limits above
MAX_LIST_KEYS; appends prefix/limit/cursor as query parameters when truthy;
reshapes the envelope, deriving list_complete as
`keys.length < limit` regardless of any server hint. -/
def list (cfg : Client) (options : KVListOptions) (resp : ListEnvelope) :
    List Request × Except KVError KVListResult :=
  let pfx := options.pfx.getD ("")
  let limit := options.limit.getD (.rat (MAX_LIST_KEYS : ℚ))
  if limit.isNaN || JSNum.lt limit (.rat 1) then
    ([], .error (.kvError ("GET") 400 (limitLowMsg limit)))
  else if JSNum.lt (.rat (MAX_LIST_KEYS : ℚ)) limit then
    ([], .error (.kvError ("GET") 400 (limitHighMsg limit)))
  else
    let params := listParams pfx limit options.cursor
    let r : KVListResult :=
      { keys := resp.result, cursor := resp.result_info_cursor,
        list_complete := JSNum.lt (.rat (resp.result.length : ℚ)) limit }
    ([keysRequest cfg params], .ok r)

/-- The TypeError produced by validateKey for the three forbidden key
names. -/
def keyNameError (key : String) : KVError :=
  if key = "" then .typeError ("Key name cannot be empty.")
  else if key = "." then .typeError ("\".\" is not allowed as a key name.")
  else .typeError ("\"..\" is not allowed as a key name.")

/-- The 414 error produced by validateKey for over-long keys, naming the
observed UTF-8 byte length and the limit. -/
def keyTooLongError (method key : String) : KVError :=
  .kvError method 414
    ("UTF-8 encoded length of " ++ toString (utf8Length key) ++
      " exceeds key length limit of " ++ toString MAX_KEY_SIZE ++ ".")

end KV

/-- A concrete client used by the concrete theorems below. -/
def cfg₀ : KV.Client :=
  { baseUrl := ("https://kv" : String),
    headers := [(("content-type" : String), ("application/json" : String))] }

/-- A concrete 404 response. -/
def resp404 : KV.Response := { status := 404 }

/-- A concrete 200 response with a text body. -/
def respText : KV.Response := { status := 200, text := ("hello" : String), json := .str ("hello") }

/-- A concrete 200 response whose JSON body is the literal null. -/
def respNullJson : KV.Response := { status := 200 }

/-- A concrete metadata response carrying a result envelope. -/
def metaResp₀ : KV.Response :=
  { status := 200, json := .obj (.cons ("result") (.str ("m")) .nil) }

/-- A concrete empty list envelope. -/
def env₀ : KV.ListEnvelope := { result := [], result_info_cursor := ("cur" : String) }

/-- A concrete two-key list envelope. -/
def env₂ : KV.ListEnvelope :=
  { result := [{ name := ("a" : String) }, { name := ("b" : String) }],
    result_info_cursor := ("cur2" : String) }

/-- A string of 8738135 three-byte characters: its UTF-8 byte length
(26214405) exceeds MAX_VALUE_SIZE while its JavaScript string length
(8738135 UTF-16 code units) does not. -/
def bigValue : String := String.mk (List.replicate 8738135 ('中'))

/-- A 513-byte key. -/
def key513 : String := String.mk (List.replicate 513 ('a'))

/-- Metadata whose JSON serialization is 1102 characters long. -/
def bigMeta : KV.Json := .str (String.mk (List.replicate 1100 ('a')))

/-- Constructor options supplying both credential schemes at once. -/
def bothSchemes : KV.KVOptions :=
  { api_email := some ("e"), api_key := some ("k"), api_token := some ("t"),
    account_id := ("a" : String), namespace_id := ("n" : String) }

/-- Constructor options supplying only api_email: half of one scheme and no
token. -/
def emailOnly : KV.KVOptions :=
  { api_email := some ("e"), account_id := ("a" : String), namespace_id := ("n" : String) }

/-- The UTF-8 length of a replicated character string. -/
theorem KV.utf8Length_replicate (n : Nat) (c : Char) :
    KV.utf8Length (String.mk (List.replicate n c)) = n * c.utf8Size := by
  show (List.replicate n c).foldl (fun n c => n + c.utf8Size) 0 = n * c.utf8Size
  suffices h : ∀ a, (List.replicate n c).foldl (fun n c => n + c.utf8Size) a = a + n * c.utf8Size by
    simpa using h 0
  induction n with
  | zero => intro a; simp
  | succ m ih =>
      intro a
      simp only [List.replicate_succ, List.foldl_cons, ih, Nat.succ_mul, Nat.mul_succ]
      omega

/-- The JavaScript length (character count) of a replicated character
string. -/
theorem KV.length_mk_replicate (n : Nat) (c : Char) :
    (String.mk (List.replicate n c)).length = n := by
  show (List.replicate n c).length = n
  simp

/-- validateKey on one of the three forbidden names. -/
theorem KV.validateKey_name (method key : String) (h : key = "" ∨ key = "." ∨ key = "..") :
    KV.validateKey method key = .error (KV.keyNameError key) := by
  rcases h with h | h | h <;> subst h <;> rfl

/-- validateKey on an over-long key. -/
theorem KV.validateKey_too_long (method key : String) (h : KV.MAX_KEY_SIZE < KV.utf8Length key) :
    KV.validateKey method key = .error (KV.keyTooLongError method key) := by
  have h0 : key ≠ "" := by rintro rfl; revert h; decide
  have h1 : key ≠ "." := by rintro rfl; revert h; decide
  have h2 : key ≠ ".." := by rintro rfl; revert h; decide
  simp [KV.validateKey, KV.keyTooLongError, h0, h1, h2, h]

/-- validateExpiration on a truthy (nonzero integer) normalized TTL: range
check, then positivity, then the 60-second floor, then success with
expiration = now + ttl. -/
theorem KV.validateExpiration_ttl (options : KV.KVPutOptions) (now t : Int)
    (ht : KV.normaliseInt options.expirationTtl = .int t) (hnz : t ≠ 0) :
    KV.validateExpiration options now =
      (if t < KV.MIN_EXPIRATION ∨ KV.MAX_EXPIRATION < t then .error (.typeError KV.outOfRangeMsg)
       else if t ≤ 0 then .error (.kvError ("PUT") 400 (KV.ttlPositiveMsg options.expirationTtl))
       else if t < KV.MIN_CACHE_TTL then
         .error (.kvError ("PUT") 400 (KV.ttlFloorMsg options.expirationTtl))
       else .ok (.int (now + t), .int t)) := by
  unfold KV.validateExpiration
  rw [ht]
  simp [hnz]

/-- put with all validations passing issues exactly the single bulk
request. -/
theorem KV.put_success (cfg : KV.Client) (key : String) (value : KV.PutValue)
    (options : KV.KVPutOptions) (now : Int) (stored : String) (e t : KV.JSNumU)
    (hk : KV.validateKey ("PUT") key = .ok ())
    (hv : KV.toStored value = .ok stored)
    (he : KV.validateExpiration options now = .ok (e, t))
    (hs : stored.length ≤ KV.MAX_VALUE_SIZE)
    (hm : KV.metadataCheck options.metadata = .ok ()) :
    KV.put cfg key value options now =
      ([KV.bulkRequest cfg key stored e t options.metadata], .ok ()) := by
  have hnotl : ¬ (stored.length > KV.MAX_VALUE_SIZE) := not_lt.mpr hs
  simp [KV.put, hk, hv, he, hnotl, hm]

/-- Every request issued by get carries the client's fixed headers. -/
theorem KV.get_headers (cfg : KV.Client) (key : String) (options : Option KV.KVGetOptions)
    (resp : KV.Response) : ∀ req ∈ (KV.get cfg key options resp).1, req.headers = cfg.headers := by
  cases h : KV.validateKey ("GET") key with
  | error e => simp [KV.get, h]
  | ok u =>
    cases ho : KV.validateGetOptions options with
    | error e => simp [KV.get, h, ho]
    | ok ty => simp [KV.get, h, ho, KV.valuesRequest]

/-- Every request issued by getWithMetadata carries the client's fixed
headers. -/
theorem KV.getWithMetadata_headers (cfg : KV.Client) (key : String)
    (options : Option KV.KVGetOptions) (vresp mresp : KV.Response) :
    ∀ req ∈ (KV.getWithMetadata cfg key options vresp mresp).1, req.headers = cfg.headers := by
  have hg := KV.get_headers cfg key options vresp
  cases h : KV.get cfg key options vresp with
  | mk reqs res =>
    rw [h] at hg
    cases res with
    | error e => simpa [KV.getWithMetadata, h] using hg
    | ok ov =>
      cases ov with
      | none => simpa [KV.getWithMetadata, h] using hg
      | some v =>
        cases hm : KV.unwrapResult mresp.json with
        | error e2 =>
            intro req hreq
            simp only [KV.getWithMetadata, h, hm, List.mem_append, List.mem_singleton] at hreq
            rcases hreq with hreq | hreq
            · exact hg req (by simpa using hreq)
            · subst hreq; rfl
        | ok md =>
            intro req hreq
            simp only [KV.getWithMetadata, h, hm, List.mem_append, List.mem_singleton] at hreq
            rcases hreq with hreq | hreq
            · exact hg req (by simpa using hreq)
            · subst hreq; rfl

/-- Every request issued by delete carries the client's fixed headers. -/
theorem KV.delete_headers (cfg : KV.Client) (key : String) :
    ∀ req ∈ (KV.delete cfg key).1, req.headers = cfg.headers := by
  cases h : KV.validateKey ("DELETE") key with
  | error e => simp [KV.delete, h]
  | ok u => simp [KV.delete, h, KV.valuesRequest]

/-- Every request issued by put carries the client's fixed headers. -/
theorem KV.put_headers (cfg : KV.Client) (key : String) (value : KV.PutValue)
    (options : KV.KVPutOptions) (now : Int) :
    ∀ req ∈ (KV.put cfg key value options now).1, req.headers = cfg.headers := by
  cases h1 : KV.validateKey ("PUT") key with
  | error e => simp [KV.put, h1]
  | ok u =>
    cases h2 : KV.toStored value with
    | error e => simp [KV.put, h1, h2]
    | ok stored =>
      cases h3 : KV.validateExpiration options now with
      | error e => simp [KV.put, h1, h2, h3]
      | ok p =>
        obtain ⟨e, t⟩ := p
        by_cases h4 : stored.length > KV.MAX_VALUE_SIZE
        · simp [KV.put, h1, h2, h3, h4]
        · cases h5 : KV.metadataCheck options.metadata with
          | error e2 => simp [KV.put, h1, h2, h3, h4, h5]
          | ok u2 => simp [KV.put, h1, h2, h3, h4, h5, KV.bulkRequest]

/-- Every request issued by list carries the client's fixed headers. -/
theorem KV.list_headers (cfg : KV.Client) (options : KV.KVListOptions) (resp : KV.ListEnvelope) :
    ∀ req ∈ (KV.list cfg options resp).1, req.headers = cfg.headers := by
  simp only [KV.list]
  split_ifs <;> simp [KV.keysRequest]

/-- C4 (confirmed): for every keyed operation (get, getWithMetadata, put,
delete) an empty, "." or ".." key fails with a TypeError (InvalidArgument
class) and no request is issued; a key whose UTF-8 byte length exceeds 512
fails with a 414 (RequestTooLarge class) error whose message reports the
observed byte length and the 512-byte limit, again with no request
issued. -/
theorem c4_key_validation (cfg : KV.Client) (key : String) :
    ((key = "" ∨ key = "." ∨ key = "..") →
      ∀ (options : Option KV.KVGetOptions) (vresp mresp : KV.Response) (value : KV.PutValue)
        (popts : KV.KVPutOptions) (now : Int),
        (KV.get cfg key options vresp = ([], .error (KV.keyNameError key)) ∧
          KV.getWithMetadata cfg key options vresp mresp = ([], .error (KV.keyNameError key)) ∧
          KV.put cfg key value popts now = ([], .error (KV.keyNameError key)) ∧
          KV.delete cfg key = ([], .error (KV.keyNameError key))) ∧
        (KV.keyNameError key).isInvalidArgument = true) ∧
    (KV.MAX_KEY_SIZE < KV.utf8Length key →
      ∀ (options : Option KV.KVGetOptions) (vresp mresp : KV.Response) (value : KV.PutValue)
        (popts : KV.KVPutOptions) (now : Int),
        (KV.get cfg key options vresp = ([], .error (KV.keyTooLongError ("GET") key)) ∧
          KV.getWithMetadata cfg key options vresp mresp =
            ([], .error (KV.keyTooLongError ("GET") key)) ∧
          KV.put cfg key value popts now = ([], .error (KV.keyTooLongError ("PUT") key)) ∧
          KV.delete cfg key = ([], .error (KV.keyTooLongError ("DELETE") key))) ∧
        (KV.keyTooLongError ("GET") key).isRequestTooLarge = true ∧
        KV.keyTooLongError ("GET") key = .kvError ("GET") 414
          ("UTF-8 encoded length of " ++ toString (KV.utf8Length key) ++
            " exceeds key length limit of " ++ toString KV.MAX_KEY_SIZE ++ ".")) := by
  constructor
  · intro h options vresp mresp value popts now
    have hg := KV.validateKey_name ("GET") key h
    have hp := KV.validateKey_name ("PUT") key h
    have hd := KV.validateKey_name ("DELETE") key h
    refine ⟨⟨?_, ?_, ?_, ?_⟩, ?_⟩
    · simp [KV.get, hg]
    · simp [KV.getWithMetadata, KV.get, hg]
    · simp [KV.put, hp]
    · simp [KV.delete, hd]
    · rcases h with h | h | h <;> subst h <;> rfl
  · intro h options vresp mresp value popts now
    have hg := KV.validateKey_too_long ("GET") key h
    have hp := KV.validateKey_too_long ("PUT") key h
    have hd := KV.validateKey_too_long ("DELETE") key h
    refine ⟨⟨?_, ?_, ?_, ?_⟩, rfl, rfl⟩
    · simp [KV.get, hg]
    · simp [KV.getWithMetadata, KV.get, hg]
    · simp [KV.put, hp]
    · simp [KV.delete, hd]

/-- Witness for C4 at a concrete 513-byte key and the concrete key "..":
both fail locally with the predicted errors. -/
theorem c4_key_validation_witness :
    KV.delete cfg₀ key513 = ([], .error (KV.keyTooLongError ("DELETE") key513)) ∧
    KV.get cfg₀ ("..") none resp404 = ([], .error (KV.keyNameError (".."))) := by
  have hlen : KV.MAX_KEY_SIZE < KV.utf8Length key513 := by
    rw [key513, KV.utf8Length_replicate]; decide
  refine ⟨?_, ?_⟩
  · exact (((c4_key_validation cfg₀ key513).2 hlen none resp404 resp404 (.str ("v")) {} 0).1).2.2.2
  · exact (((c4_key_validation cfg₀ ("..")).1 (by simp) none resp404 resp404
      (.str ("v")) {} 0).1).1

/-- C2 (confirmed): when list returns a result, list_complete is true iff
the number of returned keys is strictly below the requested limit (the
caller-supplied limit, defaulting to 1000); the result is unchanged under
any server-supplied completion hint, and a page exactly as large as the
limit always yields list_complete = false. -/
theorem c2_list_complete_iff (cfg : KV.Client) (options : KV.KVListOptions)
    (resp : KV.ListEnvelope) (reqs : List KV.Request) (r : KV.KVListResult)
    (h : KV.list cfg options resp = (reqs, .ok r)) :
    (r.list_complete = true ↔
      KV.JSNum.lt (.rat (resp.result.length : ℚ))
        (options.limit.getD (.rat (KV.MAX_LIST_KEYS : ℚ))) = true) ∧
    (∀ hint : Option Bool,
      KV.list cfg options
        { result := resp.result, result_info_cursor := resp.result_info_cursor,
          list_complete_hint := hint } = (reqs, .ok r)) ∧
    (∀ q : ℚ, options.limit.getD (.rat (KV.MAX_LIST_KEYS : ℚ)) = .rat q →
      (resp.result.length : ℚ) = q → r.list_complete = false) := by
  simp only [KV.list] at h
  split_ifs at h with h1 h2
  · exact absurd h (by simp)
  · exact absurd h (by simp)
  · simp only [Prod.mk.injEq, Except.ok.injEq] at h
    obtain ⟨hreqs, hr⟩ := h
    subst hreqs
    subst hr
    refine ⟨Iff.rfl, ?_, ?_⟩
    · intro hint
      simp only [KV.list]
      rw [if_neg h1, if_neg h2]
    · intro q hq hlen
      simp [KV.JSNum.lt, hq, hlen]

/-- Witness for C2 at a concrete full page: limit 2 with exactly 2 keys
returned gives list_complete = false. -/
theorem c2_list_complete_witness :
    ({ keys := env₂.result, cursor := ("cur2" : String), list_complete := false }
        : KV.KVListResult).list_complete = false :=
  (c2_list_complete_iff cfg₀ { limit := some (.rat 2) } env₂
    [KV.keysRequest cfg₀ [(("limit" : String), ("2" : String))]]
    { keys := env₂.result, cursor := ("cur2" : String), list_complete := false } rfl).2.2
    2 rfl rfl

/-- C10 (confirmed): when the options argument is omitted or is a record
without a type field, validateGetOptions yields the type token "text" and
get decodes the body as the UTF-8 text of the response. -/
theorem c10_default_text (cfg : KV.Client) (key : String) (resp : KV.Response)
    (hk : KV.validateKey ("GET") key = .ok ()) (h404 : resp.status ≠ 404) :
    KV.validateGetOptions none = .ok ("text") ∧
    (∀ c : Option KV.JSNum, KV.cacheBad c = false →
      KV.validateGetOptions (some (.record none c)) = .ok ("text")) ∧
    KV.get cfg key none resp = ([KV.valuesRequest cfg ("GET") key], .ok (some (.text resp.text))) ∧
    (∀ c : Option KV.JSNum, KV.cacheBad c = false →
      KV.get cfg key (some (.record none c)) resp =
        ([KV.valuesRequest cfg ("GET") key], .ok (some (.text resp.text)))) := by
  refine ⟨rfl, ?_, ?_, ?_⟩
  · intro c hc
    simp [KV.validateGetOptions, KV.getOptionsType, KV.getOptionsCacheTtl, hc, KV.getValueTypes]
  · simp [KV.get, hk, KV.validateGetOptions, KV.getOptionsType, KV.getOptionsCacheTtl,
      KV.cacheBad, KV.getValueTypes, h404, KV.decodeBody]
  · intro c hc
    simp [KV.get, hk, KV.validateGetOptions, KV.getOptionsType, KV.getOptionsCacheTtl, hc,
      KV.getValueTypes, h404, KV.decodeBody]

/-- Witness for C10 at a concrete key and 200 response. -/
theorem c10_default_text_witness :
    KV.get cfg₀ ("k") none respText =
      ([KV.valuesRequest cfg₀ ("GET") ("k")], .ok (some (.text ("hello")))) :=
  (c10_default_text cfg₀ ("k") respText rfl (by decide)).2.2.1

/-- C9 counterexample: a supplied cacheTtl of 0 is below the 60-second
floor, yet the get call succeeds (0 is falsy, so the source skips the
check entirely) and issues its request. -/
theorem c9_zero_cachettl_counterexample :
    KV.get cfg₀ ("k") (some (.record none (some (.rat 0)))) respText =
      ([KV.valuesRequest cfg₀ ("GET") ("k")], .ok (some (.text ("hello")))) := rfl

/-- C9 (amended): a supplied cacheTtl that is nonzero, non-NaN and below 60
makes get fail with a 400 error citing the floor, before any request; a
cacheTtl that passes (including 0 and NaN, which are falsy and skipped) has
no effect on the request or the result. -/
theorem c9_cachettl_amended (ty : Option String) (q : ℚ) (c : Option KV.JSNum)
    (cfg : KV.Client) (key : String) (resp : KV.Response)
    (hk : KV.validateKey ("GET") key = .ok ()) :
    (q ≠ 0 → q < 60 →
      KV.validateGetOptions (some (.record ty (some (.rat q)))) =
        .error (.kvError ("GET") 400 (KV.cacheTtlMsg (some (.rat q)))) ∧
      KV.get cfg key (some (.record ty (some (.rat q)))) resp =
        ([], .error (.kvError ("GET") 400 (KV.cacheTtlMsg (some (.rat q))))) ∧
      (KV.KVError.kvError ("GET") 400 (KV.cacheTtlMsg (some (.rat q)))).isInvalidArgument = true) ∧
    (KV.cacheBad c = false →
      KV.get cfg key (some (.record ty c)) resp = KV.get cfg key (some (.record ty none)) resp) := by
  constructor
  · intro hq0 hq60
    have hbad : KV.cacheBad (some (.rat q)) = true := by
      simp [KV.cacheBad, KV.JSNum.truthy, KV.JSNum.isNaN, KV.JSNum.lt, hq0, hq60]
    have hv : KV.validateGetOptions (some (.record ty (some (.rat q)))) =
        .error (.kvError ("GET") 400 (KV.cacheTtlMsg (some (.rat q)))) := by
      simp [KV.validateGetOptions, KV.getOptionsType, KV.getOptionsCacheTtl, hbad]
    exact ⟨hv, by simp [KV.get, hk, hv], rfl⟩
  · intro hc
    simp [KV.get, hk, KV.validateGetOptions, KV.getOptionsType, KV.getOptionsCacheTtl, hc,
      show KV.cacheBad none = false from rfl]

/-- Witness for C9 at a concrete cacheTtl of 30: the floor error is raised
with no request issued. -/
theorem c9_cachettl_witness :
    KV.get cfg₀ ("k") (some (.record none (some (.rat 30)))) respText =
      ([], .error (.kvError ("GET") 400 (KV.cacheTtlMsg (some (.rat 30))))) :=
  ((c9_cachettl_amended none 30 none cfg₀ ("k") respText rfl).1 (by decide) (by decide)).2.1

/-- C3 counterexample: a 200 (non-404) response whose JSON body is the
literal null makes get return the JavaScript null under type "json", so
getWithMetadata skips the metadata fetch (a single request is issued) even
though the value lookup was not a 404. -/
theorem c3_json_null_counterexample :
    KV.getWithMetadata cfg₀ ("k") (some (.typeStr ("json"))) respNullJson metaResp₀ =
      ([KV.valuesRequest cfg₀ ("GET") ("k")], .ok (none, none)) ∧
    respNullJson.status = 200 := ⟨rfl, rfl⟩

/-- C3 (amended): on a 404 value lookup, get returns the explicit null
(no error) and getWithMetadata returns null value and null metadata after
the single value request, skipping the metadata endpoint; when the lookup
is not a 404 and the decoded value is not the JavaScript null,
getWithMetadata issues exactly one additional request to the metadata
endpoint and unwraps its JSON body from the result envelope. -/
theorem c3_not_found_amended (cfg : KV.Client) (key : String) (options : Option KV.KVGetOptions)
    (ty : String) (vresp mresp : KV.Response)
    (hk : KV.validateKey ("GET") key = .ok ())
    (ho : KV.validateGetOptions options = .ok ty) :
    (vresp.status = 404 →
      KV.get cfg key options vresp = ([KV.valuesRequest cfg ("GET") key], .ok none) ∧
      KV.getWithMetadata cfg key options vresp mresp =
        ([KV.valuesRequest cfg ("GET") key], .ok (none, none))) ∧
    (∀ v, vresp.status ≠ 404 → KV.decodeBody ty vresp = some v →
      ∀ md, KV.unwrapResult mresp.json = .ok md →
        KV.getWithMetadata cfg key options vresp mresp =
          ([KV.valuesRequest cfg ("GET") key, KV.metadataRequest cfg key], .ok (some v, md))) := by
  constructor
  · intro h404
    have hget : KV.get cfg key options vresp = ([KV.valuesRequest cfg ("GET") key], .ok none) := by
      simp [KV.get, hk, ho, h404]
    exact ⟨hget, by simp [KV.getWithMetadata, hget]⟩
  · intro v h404 hdec md hmd
    have hget : KV.get cfg key options vresp =
        ([KV.valuesRequest cfg ("GET") key], .ok (some v)) := by
      simp [KV.get, hk, ho, h404, hdec]
    simp [KV.getWithMetadata, hget, hmd]

/-- Witness for C3 at a concrete 404 response and at a concrete 200
response with metadata envelope. -/
theorem c3_not_found_witness :
    (KV.get cfg₀ ("k") none resp404 = ([KV.valuesRequest cfg₀ ("GET") ("k")], .ok none) ∧
      KV.getWithMetadata cfg₀ ("k") none resp404 metaResp₀ =
        ([KV.valuesRequest cfg₀ ("GET") ("k")], .ok (none, none))) ∧
    KV.getWithMetadata cfg₀ ("k") none respText metaResp₀ =
      ([KV.valuesRequest cfg₀ ("GET") ("k"), KV.metadataRequest cfg₀ ("k")],
        .ok (some (.text ("hello")), some (.str ("m")))) := by
  refine ⟨(c3_not_found_amended cfg₀ ("k") none ("text") resp404 metaResp₀ rfl rfl).1 rfl, ?_⟩
  exact (c3_not_found_amended cfg₀ ("k") none ("text") respText metaResp₀ rfl rfl).2
    (.text ("hello")) (by decide) rfl (some (.str ("m"))) rfl

/-- C1 counterexample: an explicit expirationTtl of 0 normalizes to the
integer 0, which is not a positive integer, yet the put call does not fail:
0 is falsy, the whole TTL branch is skipped, and the bulk request is sent
with expiration_ttl = 0 and no absolute expiration. -/
theorem c1_zero_ttl_counterexample :
    KV.put cfg₀ ("k") (.str ("v")) { expirationTtl := some (.num 0) } 1700000000 =
      ([KV.bulkRequest cfg₀ ("k") ("v") .undefined (.int 0) none], .ok ()) := rfl

/-- C1 (amended): for a put whose expirationTtl normalizes to a nonzero
integer t (zero and NaN normalizations are falsy and fall through to the
absolute-expiration path instead), the checks run in order before any
request: outside the signed-32-bit range fails with the TypeError naming
the exact range; then a negative t fails with the 400 error asking for a
positive integer; then t below 60 fails with the 400 error citing the
floor; otherwise (sizes permitting) the single bulk request carries
absolute expiration now + t alongside expiration_ttl = t. -/
theorem c1_ttl_validation_amended (cfg : KV.Client) (key : String) (value : KV.PutValue)
    (options : KV.KVPutOptions) (now t : Int) (stored : String)
    (hk : KV.validateKey ("PUT") key = .ok ())
    (hv : KV.toStored value = .ok stored)
    (ht : KV.normaliseInt options.expirationTtl = .int t) (hnz : t ≠ 0) :
    (t < KV.MIN_EXPIRATION ∨ KV.MAX_EXPIRATION < t →
      KV.put cfg key value options now = ([], .error (.typeError KV.outOfRangeMsg))) ∧
    (KV.MIN_EXPIRATION ≤ t → t < 0 →
      KV.put cfg key value options now =
        ([], .error (.kvError ("PUT") 400 (KV.ttlPositiveMsg options.expirationTtl)))) ∧
    (0 < t → t < KV.MIN_CACHE_TTL →
      KV.put cfg key value options now =
        ([], .error (.kvError ("PUT") 400 (KV.ttlFloorMsg options.expirationTtl)))) ∧
    (KV.MIN_CACHE_TTL ≤ t → t ≤ KV.MAX_EXPIRATION →
      stored.length ≤ KV.MAX_VALUE_SIZE → KV.metadataCheck options.metadata = .ok () →
      KV.put cfg key value options now =
        ([KV.bulkRequest cfg key stored (.int (now + t)) (.int t) options.metadata], .ok ())) := by
  have he := KV.validateExpiration_ttl options now t ht hnz
  refine ⟨?_, ?_, ?_, ?_⟩
  · intro hrange
    rw [if_pos hrange] at he
    simp [KV.put, hk, hv, he]
  · intro hlo hneg
    have r1 : ¬ (t < KV.MIN_EXPIRATION ∨ KV.MAX_EXPIRATION < t) := by
      simp only [KV.MIN_EXPIRATION, KV.MAX_EXPIRATION] at *
      omega
    rw [if_neg r1, if_pos (le_of_lt hneg)] at he
    simp [KV.put, hk, hv, he]
  · intro hpos hfloor
    have r1 : ¬ (t < KV.MIN_EXPIRATION ∨ KV.MAX_EXPIRATION < t) := by
      simp only [KV.MIN_EXPIRATION, KV.MAX_EXPIRATION, KV.MIN_CACHE_TTL] at *
      omega
    have r2 : ¬ (t ≤ 0) := not_le.mpr hpos
    rw [if_neg r1, if_neg r2, if_pos hfloor] at he
    simp [KV.put, hk, hv, he]
  · intro h60 hmax hs hm
    have r1 : ¬ (t < KV.MIN_EXPIRATION ∨ KV.MAX_EXPIRATION < t) := by
      simp only [KV.MIN_EXPIRATION, KV.MAX_EXPIRATION, KV.MIN_CACHE_TTL] at *
      omega
    have r2 : ¬ (t ≤ 0) := by
      simp only [KV.MIN_CACHE_TTL] at h60
      omega
    have r3 : ¬ (t < KV.MIN_CACHE_TTL) := not_lt.mpr h60
    rw [if_neg r1, if_neg r2, if_neg r3] at he
    exact KV.put_success cfg key value options now stored (.int (now + t)) (.int t) hk hv he hs hm

/-- Witness for C1 at a concrete TTL of "3600" (a numeric string, parsed
base 10) at time 1700000000: the bulk body carries expiration
1700000000 + 3600 and expiration_ttl 3600. -/
theorem c1_ttl_validation_witness :
    KV.put cfg₀ ("k") (.str ("v")) { expirationTtl := some (.str ("3600")) } 1700000000 =
      ([KV.bulkRequest cfg₀ ("k") ("v") (.int (1700000000 + 3600)) (.int 3600) none], .ok ()) :=
  (c1_ttl_validation_amended cfg₀ ("k") (.str ("v"))
      { expirationTtl := some (.str ("3600")) } 1700000000 3600 ("v") rfl rfl rfl
      (by decide)).2.2.2 (by decide) (by decide) (by decide) rfl

/-- Length of joining strings of length one. -/
theorem KV.join_singleton_length (l : List String) (h : ∀ s ∈ l, s.length = 1) :
    (String.join l).length = l.length := by
  suffices h2 : ∀ acc : String, ((l.foldl (fun r s => r ++ s) acc).length = acc.length + l.length) by
    simpa [String.join] using h2 ("")
  induction l with
  | nil => intro acc; simp
  | cons s t ih =>
      intro acc
      simp only [List.foldl_cons, List.length_cons]
      rw [ih (fun x hx => h x (List.mem_cons_of_mem s hx)) (acc ++ s)]
      rw [String.length_append, h s (List.mem_cons_self s t)]
      omega

/-- The serialized length of the concrete big metadata value. -/
theorem KV.stringify_bigMeta_length : (KV.Json.stringify bigMeta).length = 1102 := by
  show (KV.jsonQuote (String.mk (List.replicate 1100 ('a')))).length = 1102
  rw [KV.jsonQuote]
  have hmap : (String.mk (List.replicate 1100 ('a'))).data.map KV.jsonEscapeChar =
      List.replicate 1100 (String.singleton ('a')) := by
    show (List.replicate 1100 ('a')).map KV.jsonEscapeChar = _
    rw [List.map_replicate, show KV.jsonEscapeChar ('a') = String.singleton ('a') from rfl]
  rw [hmap]
  rw [String.length_append, String.length_append]
  rw [KV.join_singleton_length]
  · simp only [List.length_replicate]
    decide
  · intro s hs
    rw [List.eq_of_mem_replicate hs]
    rfl

/-- C5 counterexample: a value of 8738135 three-byte characters has UTF-8
byte length 26214405, above the 25 MiB limit, yet put succeeds and issues
its request, because the source compares the JavaScript string length
(8738135 code units) against the limit, not the byte length. -/
theorem c5_utf16_length_counterexample :
    KV.MAX_VALUE_SIZE < KV.utf8Length bigValue ∧
    (KV.put cfg₀ ("k") (.str bigValue) {} 0).2 = .ok () := by
  constructor
  · rw [bigValue, KV.utf8Length_replicate]
    decide
  · have hs : bigValue.length ≤ KV.MAX_VALUE_SIZE := by
      rw [bigValue, KV.length_mk_replicate]
      decide
    have h := KV.put_success cfg₀ ("k") (.str bigValue) {} 0 bigValue .undefined .undefined rfl rfl rfl
      hs rfl
    rw [h]

/-- C5 (amended): after key/value/expiration validation, put first rejects
a stored value whose JavaScript string length (UTF-16 code units, not
UTF-8 bytes) exceeds 26214400 with a 413 error reporting the observed
length and the limit, then rejects present (truthy) metadata whose
JSON-serialized string length exceeds 1024 with a 413 error reporting the
observed length and the limit; both happen before any request is sent. -/
theorem c5_size_limits_amended (cfg : KV.Client) (key : String) (value : KV.PutValue)
    (options : KV.KVPutOptions) (now : Int) (stored : String) (e t : KV.JSNumU)
    (hk : KV.validateKey ("PUT") key = .ok ())
    (hv : KV.toStored value = .ok stored)
    (he : KV.validateExpiration options now = .ok (e, t)) :
    (KV.MAX_VALUE_SIZE < stored.length →
      KV.put cfg key value options now =
        ([], .error (.kvError ("PUT") 413 (KV.valueTooLargeMsg stored.length)))) ∧
    (stored.length ≤ KV.MAX_VALUE_SIZE →
      ∀ m, options.metadata = some m → m.truthy = true →
        KV.MAX_METADATA_SIZE < (KV.Json.stringify m).length →
        KV.put cfg key value options now =
          ([], .error (.kvError ("PUT") 413 (KV.metadataTooLargeMsg
            (KV.Json.stringify m).length)))) := by
  refine ⟨?_, ?_⟩
  · intro hbig
    simp [KV.put, hk, hv, he, hbig]
  · intro hs m hm htr hlen
    have hnotl : ¬ (stored.length > KV.MAX_VALUE_SIZE) := not_lt.mpr hs
    have hne : (KV.Json.stringify m).length ≠ 0 := by
      simp only [KV.MAX_METADATA_SIZE] at hlen
      omega
    have hmc : KV.metadataCheck options.metadata =
        .error (.kvError ("PUT") 413 (KV.metadataTooLargeMsg (KV.Json.stringify m).length)) := by
      rw [hm]
      simp [KV.metadataCheck, htr, hne, hlen]
    simp [KV.put, hk, hv, he, hnotl, hmc]

/-- Witness for C5 at concrete 1102-character metadata: put fails with the
413 metadata error and no request. -/
theorem c5_size_limits_witness :
    KV.put cfg₀ ("k") (.str ("v")) { metadata := some bigMeta } 0 =
      ([], .error (.kvError ("PUT") 413 (KV.metadataTooLargeMsg
        (KV.Json.stringify bigMeta).length))) :=
  (c5_size_limits_amended cfg₀ ("k") (.str ("v")) { metadata := some bigMeta } 0 ("v")
      .undefined .undefined rfl rfl rfl).2 (by decide) bigMeta rfl (by decide)
    (by rw [KV.stringify_bigMeta_length]; decide)

/-- C6 (code bug): binary buffers, views and streams have JavaScript typeof
"object", so put JSON-stringifies them and sends the result instead of
raising the TypeError its own message promises; only primitives outside the
declared type reach the rejection branch. -/
theorem c6_arraybuffer_not_rejected :
    KV.put cfg₀ ("k") (.arrayBuffer) {} 0 =
      ([KV.bulkRequest cfg₀ ("k") ("\x7b\x7d") .undefined .undefined none], .ok ()) ∧
    KV.toStored (.arrayBuffer) = .ok ("\x7b\x7d") ∧
    KV.toStored (.stream) = .ok ("\x7b\x7d") ∧
    KV.toStored (.arrayBufferView [1, 2]) = .ok ("\x7b\"0\":1,\"1\":2\x7d") ∧
    KV.toStored (.prim) = .error (.typeError KV.putValueTypeMsg) :=
  ⟨rfl, rfl, rfl, rfl, rfl⟩

/-- C7 counterexample: on success the header set does NOT contain exactly
one credential scheme.  Supplying both schemes yields a client whose
headers contain the email/key pair AND the bearer authorization header (no
precedence, two schemes); supplying only api_email passes the
at-least-one-credential check and yields a client whose headers contain no
credential at all (zero schemes). -/
theorem c7_both_schemes_counterexample :
    KV.mkClient bothSchemes =
      .ok { baseUrl := ("https://api.cloudflare.com/client/v4/accounts/a/storage/kv/namespaces/n"),
            headers := [(("content-type" : String), ("application/json" : String)),
              (("x-api-email" : String), ("e" : String)), (("x-auth-key" : String), ("k" : String)),
              (("authorization" : String), ("Bearer t" : String))] } ∧
    KV.mkClient emailOnly =
      .ok { baseUrl := ("https://api.cloudflare.com/client/v4/accounts/a/storage/kv/namespaces/n"),
            headers := [(("content-type" : String), ("application/json" : String))] } :=
  ⟨rfl, rfl⟩

/-- C7 (amended): construction fails when account_id or namespace_id is
empty, and when none of the three credential fields is truthy; it succeeds
whenever the identifiers are nonempty and at least one credential field is
truthy, and the header set is then the content-type header, plus the
email/key pair when both are truthy, plus the bearer header when the token
is truthy (so both schemes coexist when both are supplied, and supplying
only one of email/key yields no credential header at all); every request
of every operation reuses the client's fixed headers unchanged. -/
theorem c7_construction_amended (o : KV.KVOptions) :
    (o.account_id = "" ∨ o.namespace_id = "" →
      KV.mkClient o = .error (.plainError ("Missing account_id or namespace_id"))) ∧
    (o.account_id ≠ "" → o.namespace_id ≠ "" →
      KV.strTruthy o.api_email = false → KV.strTruthy o.api_key = false →
      KV.strTruthy o.api_token = false →
      KV.mkClient o = .error (.plainError ("Missing api_email, api_key or api_token"))) ∧
    (o.account_id ≠ "" → o.namespace_id ≠ "" →
      (KV.strTruthy o.api_email = true ∨ KV.strTruthy o.api_key = true ∨
        KV.strTruthy o.api_token = true) →
      KV.mkClient o =
        .ok { baseUrl := KV.jsReplace
                (KV.jsReplace KV.baseUrlTemplate ("\x7baccount_identifier\x7d") o.account_id)
                ("\x7bnamespace_identifier\x7d") o.namespace_id,
              headers := [(("content-type" : String), ("application/json" : String))] ++
                (if KV.strTruthy o.api_email ∧ KV.strTruthy o.api_key then
                  [(("x-api-email" : String), o.api_email.getD ("")),
                    (("x-auth-key" : String), o.api_key.getD (""))]
                 else []) ++
                (if KV.strTruthy o.api_token then
                  [(("authorization" : String), "Bearer " ++ o.api_token.getD (""))]
                 else []) }) ∧
    (∀ cfg key options resp, ∀ req ∈ (KV.get cfg key options resp).1,
      req.headers = cfg.headers) ∧
    (∀ cfg key options vresp mresp, ∀ req ∈ (KV.getWithMetadata cfg key options vresp mresp).1,
      req.headers = cfg.headers) ∧
    (∀ cfg key, ∀ req ∈ (KV.delete cfg key).1, req.headers = cfg.headers) ∧
    (∀ cfg key value poptions now, ∀ req ∈ (KV.put cfg key value poptions now).1,
      req.headers = cfg.headers) ∧
    (∀ cfg loptions resp, ∀ req ∈ (KV.list cfg loptions resp).1, req.headers = cfg.headers) := by
  refine ⟨?_, ?_, ?_, KV.get_headers, KV.getWithMetadata_headers, KV.delete_headers,
    KV.put_headers, KV.list_headers⟩
  · intro h
    rcases h with h | h <;> simp [KV.mkClient, h]
  · intro ha hn he hk2 htk
    simp [KV.mkClient, ha, hn, he, hk2, htk]
  · intro ha hn hcred
    have h1 : ¬ (o.account_id = "" ∨ o.namespace_id = "") := by
      simp [ha, hn]
    have h2 : ¬ (¬ KV.strTruthy o.api_email = true ∧ ¬ KV.strTruthy o.api_key = true ∧
        ¬ KV.strTruthy o.api_token = true) := by
      rcases hcred with h | h | h <;> simp [h]
    simp only [KV.mkClient]
    rw [if_neg h1, if_neg h2]
    split_ifs <;> simp

/-- Witness for C7: a concrete empty account_id fails construction, and
concrete email-only options succeed with no credential header. -/
theorem c7_construction_witness :
    KV.mkClient { account_id := ("" : String), namespace_id := ("n" : String),
                  api_token := some ("t") } =
      .error (.plainError ("Missing account_id or namespace_id")) ∧
    KV.mkClient emailOnly =
      .ok { baseUrl := ("https://api.cloudflare.com/client/v4/accounts/a/storage/kv/namespaces/n"),
            headers := [(("content-type" : String), ("application/json" : String))] } := by
  constructor
  · exact (c7_construction_amended { account_id := ("" : String), namespace_id := ("n" : String),
                                     api_token := some ("t") }).1 (Or.inl rfl)
  · exact (c7_construction_amended emailOnly).2.2.1 (by decide) (by decide) (Or.inl rfl)

/-- C8 counterexample: a limit of 5/2 is not a positive integer, yet list
does not fail: it issues its request (the source checks only NaN, the lower
bound 1 and the upper bound 1000, never integrality). -/
theorem c8_fractional_limit_counterexample :
    (KV.list cfg₀ { limit := some (.rat (mkRat 5 2)) } env₀).1.length = 1 ∧
    (KV.list cfg₀ { limit := some (.rat (mkRat 5 2)) } env₀).2 =
      .ok { keys := [], cursor := ("cur" : String), list_complete := true } := ⟨rfl, rfl⟩

/-- C8 (amended): list fails with a 400 error when the limit is NaN or
below 1 (citing "greater than 0") or above 1000 (citing "less than 1000"),
before any request; any other limit — including non-integers between 1 and
1000 — is accepted and always sent as the limit query parameter; an
omitted limit defaults to 1000, which is sent as limit=1000. -/
theorem c8_limit_validation_amended (cfg : KV.Client) (options : KV.KVListOptions)
    (resp : KV.ListEnvelope) :
    (options.limit = some .nan →
      KV.list cfg options resp = ([], .error (.kvError ("GET") 400 (KV.limitLowMsg .nan)))) ∧
    (∀ q : ℚ, options.limit = some (.rat q) → q < 1 →
      KV.list cfg options resp = ([], .error (.kvError ("GET") 400 (KV.limitLowMsg (.rat q))))) ∧
    (∀ q : ℚ, options.limit = some (.rat q) → (1000 : ℚ) < q →
      KV.list cfg options resp = ([], .error (.kvError ("GET") 400 (KV.limitHighMsg (.rat q))))) ∧
    (∀ q : ℚ, options.limit = some (.rat q) → 1 ≤ q → q ≤ 1000 →
      (KV.list cfg options resp).1 =
        [KV.keysRequest cfg (KV.listParams (options.pfx.getD ("")) (.rat q) options.cursor)] ∧
      (("limit" : String), KV.JSNum.render (.rat q)) ∈
        KV.listParams (options.pfx.getD ("")) (.rat q) options.cursor) ∧
    (options.limit = none →
      KV.list cfg options resp =
        ([KV.keysRequest cfg
            (KV.listParams (options.pfx.getD ("")) (.rat (KV.MAX_LIST_KEYS : ℚ)) options.cursor)],
          .ok { keys := resp.result, cursor := resp.result_info_cursor,
                list_complete := KV.JSNum.lt (.rat (resp.result.length : ℚ))
                  (.rat (KV.MAX_LIST_KEYS : ℚ)) }) ∧
      (("limit" : String), ("1000" : String)) ∈
        KV.listParams (options.pfx.getD ("")) (.rat (KV.MAX_LIST_KEYS : ℚ)) options.cursor) := by
  refine ⟨?_, ?_, ?_, ?_, ?_⟩
  · intro h
    simp [KV.list, h, KV.JSNum.isNaN]
  · intro q h hq
    simp [KV.list, h, KV.JSNum.isNaN, KV.JSNum.lt, hq]
  · intro q h hq
    have h1 : ¬ (q < 1) := not_lt.mpr (le_trans (by norm_num) (le_of_lt hq))
    have h2 : ((KV.MAX_LIST_KEYS : ℕ) : ℚ) < q := by
      simp only [KV.MAX_LIST_KEYS]
      push_cast
      exact hq
    simp [KV.list, h, KV.JSNum.isNaN, KV.JSNum.lt, h1, h2]
  · intro q h h1q hq1000
    have hc1 : ¬ (q < 1) := not_lt.mpr h1q
    have hc2 : ¬ (((KV.MAX_LIST_KEYS : ℕ) : ℚ) < q) := by
      simp only [KV.MAX_LIST_KEYS]
      push_cast
      exact not_lt.mpr hq1000
    have hq0 : q ≠ 0 := by
      intro h0
      rw [h0] at h1q
      norm_num at h1q
    constructor
    · simp [KV.list, h, KV.JSNum.isNaN, KV.JSNum.lt, hc1, hc2]
    · simp [KV.listParams, KV.JSNum.truthy, hq0, List.mem_append]
  · intro h
    have hc1 : ¬ (((KV.MAX_LIST_KEYS : ℕ) : ℚ) < 1) := by norm_num [KV.MAX_LIST_KEYS]
    have hc2 : ¬ (((KV.MAX_LIST_KEYS : ℕ) : ℚ) < ((KV.MAX_LIST_KEYS : ℕ) : ℚ)) := lt_irrefl _
    have hq0 : ((KV.MAX_LIST_KEYS : ℕ) : ℚ) ≠ 0 := by norm_num [KV.MAX_LIST_KEYS]
    constructor
    · simp [KV.list, h, KV.JSNum.isNaN, KV.JSNum.lt, hc1, hc2]
    · simp [KV.listParams, KV.JSNum.truthy, hq0, List.mem_append,
        show KV.JSNum.render (.rat (KV.MAX_LIST_KEYS : ℚ)) = ("1000" : String) from rfl]

/-- Witness for C8 with no options: the limit defaults to 1000 and is sent
as a query parameter. -/
theorem c8_limit_validation_witness :
    (KV.list cfg₀ {} env₂ =
      ([KV.keysRequest cfg₀ (KV.listParams ("") (.rat (KV.MAX_LIST_KEYS : ℚ)) none)],
        .ok { keys := env₂.result, cursor := env₂.result_info_cursor,
              list_complete := KV.JSNum.lt (.rat (env₂.result.length : ℚ))
                (.rat (KV.MAX_LIST_KEYS : ℚ)) }) ∧
    (("limit" : String), ("1000" : String)) ∈
      KV.listParams ("") (.rat (KV.MAX_LIST_KEYS : ℚ)) none) :=
  (c8_limit_validation_amended cfg₀ {} env₂).2.2.2.2 rfl
